import Mathlib

/-!
Verification of the bulk-email dispatch engine (`email_sender_bot.py`).

The Python program is shallowly embedded: external effects (the SMTP
channel, the filesystem, `time.sleep`) become explicit oracles and
event traces, and every method of `EmailSenderBot` that the claims
mention becomes a total Lean function translated from its source.
-/

/-- Outcome of one SMTP send attempt, mirroring the exception
classification in `send_email_with_retry`: success, the two
refusal exceptions (`SMTPRecipientsRefused`, `SMTPSenderRefused`)
that abort immediately, and any other exception, which is retried. -/
inductive AttemptResult where
  | sent
  | recipientRefused
  | senderRefused
  | otherError
deriving Repr, DecidableEq

/-- Result of `send_email_with_retry`: the returned boolean, the number
of send attempts actually made, and the list of backoff sleeps
(seconds), in the order `time.sleep` was called. -/
structure RetryResult where
  success : Bool
  attempts : Nat
  waits : List Nat
deriving Repr, DecidableEq

/-- The body of the `for attempt in range(max_retries)` loop of
`send_email_with_retry`, recursing on the number of remaining
iterations; the current attempt index is `max_retries - remaining`.
`sent` returns `True` at once; the two refusal exceptions return
`False` at once; any other error sleeps `2 ** attempt` seconds when
`attempt < max_retries - 1` and continues the loop. Falling off the
end of the loop returns `False`. -/
def retryLoop (channel : Nat → AttemptResult) (max_retries : Nat) : Nat → RetryResult
  | 0 => { success := false, attempts := 0, waits := [] }
  | remaining + 1 =>
    let attempt := max_retries - remaining - 1
    match channel attempt with
    | .sent => { success := true, attempts := 1, waits := [] }
    | .recipientRefused => { success := false, attempts := 1, waits := [] }
    | .senderRefused => { success := false, attempts := 1, waits := [] }
    | .otherError =>
      let rest := retryLoop channel max_retries remaining
      if attempt < max_retries - 1 then
        { success := rest.success, attempts := rest.attempts + 1,
          waits := 2 ^ attempt :: rest.waits }
      else
        { success := rest.success, attempts := rest.attempts + 1, waits := rest.waits }

/-- `EmailSenderBot.send_email_with_retry`, with the per-attempt SMTP
interaction abstracted as `channel : Nat → AttemptResult` giving the
outcome of each attempt index. -/
def send_email_with_retry (channel : Nat → AttemptResult) (max_retries : Nat) : RetryResult :=
  retryLoop channel max_retries max_retries

/-- A recipient record: the ordered field-name to value mapping of one
CSV row as produced by `csv.DictReader`. -/
abbrev Recipient := List (String × String)

/-- `recipient.get('email', 'Unknown')` as used by `send_bulk_emails`. -/
def recipientEmail (r : Recipient) : String :=
  match List.lookup "email" r with
  | some e => e
  | none => "Unknown"

/-- The row loop of `EmailSenderBot.read_recipients_from_csv`: a row
whose `email` key is missing is skipped; a row whose `email` value is
empty or does not contain the character `@` is skipped; every other
row is appended unchanged. -/
def read_recipients_from_rows : List Recipient → List Recipient
  | [] => []
  | row :: rest =>
    match List.lookup "email" row with
    | none => read_recipients_from_rows rest
    | some e =>
      if e.isEmpty || !(e.contains '@') then read_recipients_from_rows rest
      else row :: read_recipients_from_rows rest

/-- The recipient data source as the loader can observe it: the file
may be missing (`FileNotFoundError`), reading may fail with some other
exception, or it yields a list of rows. -/
inductive CsvSource where
  | missing
  | readError
  | present (rows : List Recipient)

/-- The error the loader logs instead of raising. -/
inductive LoadSignal where
  | sourceNotFound
  | readFailed
deriving Repr, DecidableEq

/-- `EmailSenderBot.read_recipients_from_csv`: on `FileNotFoundError`
it logs the source-not-found error and returns `[]`; on any other
exception it logs a read error and returns `[]`; otherwise it filters
the rows. The logged error is returned alongside the list. -/
def read_recipients_from_csv : CsvSource → List Recipient × Option LoadSignal
  | .missing => ([], some .sourceNotFound)
  | .readError => ([], some .readFailed)
  | .present rows => (read_recipients_from_rows rows, none)

/-- Stated from the spec, for comparison with the loader: a row is kept
exactly when its `email` field is present, non-empty and contains `@`. -/
def rowHasValidEmail (row : Recipient) : Bool :=
  match List.lookup "email" row with
  | none => false
  | some e => !e.isEmpty && e.contains '@'

/-- One piece of a Python format string: literal text or a `{field}`
placeholder. A template is the parsed form of the format string. -/
inductive TemplatePart where
  | lit (s : String)
  | placeholder (field : String)
deriving Repr, DecidableEq

/-- `template.format(**recipient)`: substitute each placeholder with
the record's value for that field; a placeholder naming a field absent
from the record raises `KeyError`, modelled as `none`. -/
def formatTemplate (tmpl : List TemplatePart) (r : Recipient) : Option String :=
  match tmpl with
  | [] => some ""
  | .lit s :: rest => (formatTemplate rest r).map (fun t => s ++ t)
  | .placeholder f :: rest =>
    match List.lookup f r with
    | none => none
    | some v => (formatTemplate rest r).map (fun t => v ++ t)

/-- `os.path.basename` for `/`-separated paths. -/
def basename (p : String) : String :=
  match (p.splitOn "/").getLast? with
  | some s => s
  | none => p

/-- The MIME message built by `create_email_message`: sender, recipient
address, personalized subject and body, and the base names of the
files that were actually attached. -/
structure RenderedMessage where
  from_addr : String
  to_addr : String
  subject : String
  body : String
  attached : List String
deriving Repr, DecidableEq

/-- `EmailSenderBot.create_email_message`. The whole body runs under
`try`: a `KeyError` from `subject.format`, from `body_template.format`
or from `recipient['email']` is caught and `None` is returned. An
attachment path that does not exist is only warned about and omitted,
and `attach_file` catches its own read errors and omits the file, so
attachments never make the result `None`. The filesystem is the pair
of oracles `fileExists` (`os.path.exists`) and `fileReadable`. -/
def create_email_message (sender : String) (fileExists fileReadable : String → Bool)
    (recipient : Recipient) (subject body_template : List TemplatePart)
    (attachments : List String) : Option RenderedMessage :=
  match formatTemplate subject recipient, formatTemplate body_template recipient,
        List.lookup "email" recipient with
  | some subj, some body, some em =>
    some { from_addr := sender, to_addr := em, subject := subj, body := body,
           attached := (attachments.filter (fun p => fileExists p && fileReadable p)).map basename }
  | _, _, _ => none

/-- Observable event of the bulk loop, in program order: the terminal
outcome of one recipient (render failure, successful send, failed
send) or one `time.sleep(delay)` call. -/
inductive BulkEvent where
  | renderFailed (email : String)
  | sentTo (email : String)
  | sendFailedTo (email : String)
  | delayed
deriving Repr, DecidableEq

/-- The mutable state of `send_bulk_emails`: the three accumulated
counters of the `stats` dictionary plus the event trace. -/
structure BulkState where
  success : Nat
  failed : Nat
  failed_recipients : List String
  trace : List BulkEvent
deriving Repr, DecidableEq

/-- The state of `send_bulk_emails` before its loop starts. -/
def emptyBulkState : BulkState :=
  { success := 0, failed := 0, failed_recipients := [], trace := [] }

/-- The `for i, recipient in enumerate(recipients, 1)` loop of
`send_bulk_emails`. `render` abstracts `create_email_message` and
`send` abstracts the boolean result of `send_email_with_retry`. When
rendering returns `None` the recipient is counted failed and `continue`
jumps to the next recipient, skipping both the send and the delay;
otherwise the send outcome is recorded and, when this is not the last
recipient (`i < len(recipients)`), `time.sleep(delay)` runs. -/
def send_bulk_loop (render : Recipient → Option RenderedMessage)
    (send : RenderedMessage → String → Bool) :
    List Recipient → BulkState → BulkState
  | [], st => st
  | r :: rest, st =>
    let recipient_email := recipientEmail r
    match render r with
    | none =>
      send_bulk_loop render send rest
        { st with failed := st.failed + 1,
                  failed_recipients := st.failed_recipients ++ [recipient_email],
                  trace := st.trace ++ [.renderFailed recipient_email] }
    | some msg =>
      let st1 : BulkState :=
        if send msg recipient_email then
          { st with success := st.success + 1, trace := st.trace ++ [.sentTo recipient_email] }
        else
          { st with failed := st.failed + 1,
                    failed_recipients := st.failed_recipients ++ [recipient_email],
                    trace := st.trace ++ [.sendFailedTo recipient_email] }
      let st2 : BulkState :=
        if rest.isEmpty then st1 else { st1 with trace := st1.trace ++ [.delayed] }
      send_bulk_loop render send rest st2

/-- The statistics dictionary returned by `send_bulk_emails`; `total`
is set to `len(recipients)` before the loop and never changed. -/
structure DispatchStats where
  total : Nat
  success : Nat
  failed : Nat
  failed_recipients : List String
deriving Repr, DecidableEq

/-- `EmailSenderBot.send_bulk_emails`: run the loop from the initial
stats and return the statistics together with the event trace. -/
def send_bulk_emails (render : Recipient → Option RenderedMessage)
    (send : RenderedMessage → String → Bool)
    (recipients : List Recipient) : DispatchStats × List BulkEvent :=
  let fin := send_bulk_loop render send recipients emptyBulkState
  ({ total := recipients.length, success := fin.success, failed := fin.failed,
     failed_recipients := fin.failed_recipients }, fin.trace)

/-- Componentwise combination of bulk states: counters add and the
recorded lists concatenate. Running the loop from `st` is running it
from the empty state and combining with `st`. -/
def addState (a b : BulkState) : BulkState :=
  { success := a.success + b.success, failed := a.failed + b.failed,
    failed_recipients := a.failed_recipients ++ b.failed_recipients,
    trace := a.trace ++ b.trace }

/-- A string of `n` copies of `c`, for the report's rule lines. -/
def repeatChar (c : Char) (n : Nat) : String :=
  String.mk (List.replicate n c)

/-- The conditional expression
`stats['success']/stats['total']*100 if stats['total']>0 else 0`
of `generate_report`, with Python float arithmetic idealized as exact
rational arithmetic. -/
def successRate (stats : DispatchStats) : ℚ :=
  if stats.total > 0 then (stats.success : ℚ) / (stats.total : ℚ) * 100 else 0

/-- Python's `:.1f` fixed-point rendering of a non-negative value,
idealized over `ℚ`: round to the nearest tenth and print one digit
after the point. -/
def formatFixed1 (q : ℚ) : String :=
  let n : Int := round (q * 10)
  toString (n / 10) ++ "." ++ toString ((n % 10).natAbs)

/-- `EmailSenderBot.generate_report`: the list of report lines, with
the failed-recipients section appended only when the failed list is
non-empty. -/
def generate_report (stats : DispatchStats) : List String :=
  let t := stats.total
  let s := stats.success
  let f := stats.failed
  let base : List String :=
    [ "\n" ++ repeatChar '=' 50,
      "EMAIL SEND REPORT",
      repeatChar '=' 50,
      "Total Recipients: " ++ toString t,
      "Successfully Sent: " ++ toString s,
      "Failed: " ++ toString f,
      "Success Rate: " ++ formatFixed1 (successRate stats) ++ "%" ]
  let tail : List String :=
    if stats.failed_recipients.isEmpty then []
    else ["\nFailed Recipients:", repeatChar '-' 20] ++
         stats.failed_recipients.map (fun e => "  • " ++ e)
  base ++ tail

lemma retryLoop_all_transient (channel : Nat → AttemptResult)
    (hc : ∀ i, channel i = .otherError) (m : Nat) :
    ∀ remaining, remaining ≤ m →
      retryLoop channel m remaining =
        { success := false, attempts := remaining,
          waits := (List.range' (m - remaining) (remaining - 1)).map (fun i => 2 ^ i) } := by
  intro remaining
  induction remaining with
  | zero => intro _; simp [retryLoop]
  | succ k ih =>
    intro hk
    rw [retryLoop, hc]
    rcases Nat.eq_zero_or_pos k with hk0 | hkpos
    · subst hk0
      have hlt : ¬ (m - 0 - 1 < m - 1) := by omega
      simp [hlt, retryLoop]
    · have hlt : m - k - 1 < m - 1 := by omega
      rw [ih (by omega)]
      simp only [hlt, if_true]
      have harith : m - (k + 1) = m - k - 1 := by omega
      have hrange : List.range' (m - k - 1) k = (m - k - 1) :: List.range' (m - k) (k - 1) := by
        have hk' : k = (k - 1) + 1 := by omega
        have e1 : m - k - 1 + 1 = m - k := by omega
        have e2 : m - (k - 1 + 1) - 1 = m - k - 1 := by omega
        conv_lhs => rw [hk', List.range'_succ]
        rw [e2, e1]
      simp [harith, hrange]

lemma sum_map_range_two_pow (n : Nat) :
    (((List.range n).map (fun i => 2 ^ i)).sum : Nat) = ∑ i ∈ Finset.range n, 2 ^ i := by
  induction n with
  | zero => simp
  | succ k ih =>
    rw [List.range_succ, List.map_append, List.sum_append, Finset.sum_range_succ, ih]
    simp

/-- C2: with a channel failing transiently on every attempt and
`maxAttempts ≥ 1`, the retry controller makes exactly `maxAttempts`
attempts, fails, sleeps `2^i` seconds between consecutive attempts
`i` and `i+1` only (never after the last attempt), and the total
backoff wait is `∑ 2^i` for `i` in `0 .. maxAttempts-2`. -/
theorem retry_all_transient_attempts_and_backoff
    (channel : Nat → AttemptResult) (m : Nat) (hm : 1 ≤ m)
    (hc : ∀ i, channel i = .otherError) :
    (send_email_with_retry channel m).success = false ∧
    (send_email_with_retry channel m).attempts = m ∧
    (send_email_with_retry channel m).waits = (List.range (m - 1)).map (fun i => 2 ^ i) ∧
    (send_email_with_retry channel m).waits.sum = ∑ i ∈ Finset.range (m - 1), 2 ^ i := by
  have h := retryLoop_all_transient channel hc m m le_rfl
  rw [send_email_with_retry, h]
  refine ⟨rfl, rfl, ?_, ?_⟩
  · simp [List.range_eq_range']
  · rw [show m - m = 0 by omega, ← List.range_eq_range', sum_map_range_two_pow]

/-- C2 witness: at `maxAttempts = 3` the controller makes 3 attempts,
waits 1 then 2 seconds, totalling 3 = 2^0 + 2^1. -/
theorem retry_all_transient_attempts_and_backoff_witness :
    (send_email_with_retry (fun _ => .otherError) 3).success = false ∧
    (send_email_with_retry (fun _ => .otherError) 3).attempts = 3 ∧
    (send_email_with_retry (fun _ => .otherError) 3).waits = (List.range 2).map (fun i => 2 ^ i) ∧
    (send_email_with_retry (fun _ => .otherError) 3).waits.sum = ∑ i ∈ Finset.range 2, 2 ^ i :=
  retry_all_transient_attempts_and_backoff (fun _ => .otherError) 3 (by decide) (fun _ => rfl)

/-- C3: if the first attempt raises a refusal exception (recipient
refused, or sender/authentication refused), the controller makes
exactly one attempt, performs no backoff sleep, and returns failure. -/
theorem retry_permanent_first_attempt
    (channel : Nat → AttemptResult) (m : Nat) (hm : 1 ≤ m)
    (hc : channel 0 = .recipientRefused ∨ channel 0 = .senderRefused) :
    send_email_with_retry channel m =
      { success := false, attempts := 1, waits := [] } := by
  obtain ⟨k, rfl⟩ : ∃ k, m = k + 1 := ⟨m - 1, by omega⟩
  rw [send_email_with_retry, retryLoop]
  have h0 : k + 1 - k - 1 = 0 := by omega
  rcases hc with hc | hc <;> simp [h0, hc]

/-- C3 witness: a recipient-refused first attempt with `maxAttempts = 3`. -/
theorem retry_permanent_first_attempt_witness :
    send_email_with_retry (fun _ => .recipientRefused) 3 =
      { success := false, attempts := 1, waits := [] } :=
  retry_permanent_first_attempt (fun _ => .recipientRefused) 3 (by decide) (Or.inl rfl)

/-- C9: with `max_retries = 0` the `range(0)` loop body never runs:
zero attempts, no sleeps, and the function returns `False`. -/
theorem retry_zero_max_retries (channel : Nat → AttemptResult) :
    send_email_with_retry channel 0 =
      { success := false, attempts := 0, waits := [] } := rfl

lemma addState_empty_right (st : BulkState) : addState st emptyBulkState = st := by
  simp [addState, emptyBulkState]

lemma addState_assoc (a b c : BulkState) :
    addState (addState a b) c = addState a (addState b c) := by
  simp [addState, Nat.add_assoc, List.append_assoc]

lemma send_bulk_loop_eq_addState (render : Recipient → Option RenderedMessage)
    (send : RenderedMessage → String → Bool) :
    ∀ (l : List Recipient) (st : BulkState),
      send_bulk_loop render send l st =
        addState st (send_bulk_loop render send l emptyBulkState) := by
  intro l
  induction l with
  | nil => intro st; simp [send_bulk_loop, addState_empty_right]
  | cons r rest ih =>
    intro st
    rw [send_bulk_loop, send_bulk_loop]
    cases hrender : render r with
    | none =>
      conv_lhs => rw [ih]
      conv_rhs => rw [ih]
      rw [← addState_assoc]
      congr 1
    | some msg =>
      cases hsend : send msg (recipientEmail r) <;>
        cases hrest : rest.isEmpty <;>
          · simp only [hsend, hrest, Bool.false_eq_true, if_false, if_true]
            conv_lhs => rw [ih]
            conv_rhs => rw [ih]
            rw [← addState_assoc]
            congr 1 <;> simp [addState, emptyBulkState]

lemma send_bulk_loop_counts (render : Recipient → Option RenderedMessage)
    (send : RenderedMessage → String → Bool) :
    ∀ l : List Recipient,
      (send_bulk_loop render send l emptyBulkState).success +
        (send_bulk_loop render send l emptyBulkState).failed = l.length ∧
      (send_bulk_loop render send l emptyBulkState).failed_recipients.length =
        (send_bulk_loop render send l emptyBulkState).failed := by
  intro l
  induction l with
  | nil => simp [send_bulk_loop, emptyBulkState]
  | cons r rest ih =>
    obtain ⟨ih1, ih2⟩ := ih
    simp only [emptyBulkState] at ih1 ih2
    rw [send_bulk_loop]
    cases hrender : render r with
    | none =>
      rw [send_bulk_loop_eq_addState]
      simp only [addState, emptyBulkState, List.length_cons, List.length_append,
        List.length_nil]
      constructor <;> omega
    | some msg =>
      cases hsend : send msg (recipientEmail r) <;>
        cases hrest : rest.isEmpty <;>
          · simp only [hsend, hrest, Bool.false_eq_true, if_false, if_true]
            rw [send_bulk_loop_eq_addState]
            simp only [addState, emptyBulkState, List.length_cons, List.length_append,
              List.length_nil]
            constructor <;> omega

/-- C1: for every recipient sequence and every behaviour of rendering
and delivery, the returned statistics satisfy
`success + failed = total` and the failed list has exactly `failed`
entries: each recipient is counted exactly once. -/
theorem bulk_stats_accounting (render : Recipient → Option RenderedMessage)
    (send : RenderedMessage → String → Bool) (recipients : List Recipient) :
    (send_bulk_emails render send recipients).1.success +
        (send_bulk_emails render send recipients).1.failed =
      (send_bulk_emails render send recipients).1.total ∧
    (send_bulk_emails render send recipients).1.failed_recipients.length =
      (send_bulk_emails render send recipients).1.failed := by
  simpa [send_bulk_emails] using send_bulk_loop_counts render send recipients

/-- C4 counterexample: two recipients whose rendering fails. The claim
requires a delay after the first (non-last) recipient regardless of its
outcome, but the `continue` taken on render failure skips the
`time.sleep(delay)`: the trace holds no delay event at all. -/
theorem bulk_delay_unconditional_cex :
    (send_bulk_emails (fun _ => none) (fun _ _ => true)
        [[("email", "a@x.com")], [("email", "c@x.com")]]).2 =
      [BulkEvent.renderFailed "a@x.com", BulkEvent.renderFailed "c@x.com"] ∧
    BulkEvent.delayed ∉ (send_bulk_emails (fun _ => none) (fun _ _ => true)
        [[("email", "a@x.com")], [("email", "c@x.com")]]).2 := by
  constructor
  · rfl
  · decide

/-- C4 amended: for every recipient that is not last and whose message
renders successfully, one delay follows its (success or failure) send
outcome before the next recipient is processed, regardless of the send
outcome; a recipient whose rendering fails is skipped with no delay. -/
theorem bulk_delay_after_rendered_only (render : Recipient → Option RenderedMessage)
    (send : RenderedMessage → String → Bool) (r : Recipient) (rest : List Recipient)
    (hrest : rest ≠ []) :
    (∀ msg, render r = some msg →
      (send_bulk_emails render send (r :: rest)).2 =
        (if send msg (recipientEmail r) then BulkEvent.sentTo (recipientEmail r)
         else BulkEvent.sendFailedTo (recipientEmail r)) ::
        BulkEvent.delayed :: (send_bulk_emails render send rest).2) ∧
    (render r = none →
      (send_bulk_emails render send (r :: rest)).2 =
        BulkEvent.renderFailed (recipientEmail r) :: (send_bulk_emails render send rest).2) := by
  have hempty : rest.isEmpty = false := by
    cases rest with
    | nil => exact absurd rfl hrest
    | cons a l => rfl
  constructor
  · intro msg hmsg
    simp only [send_bulk_emails]
    rw [send_bulk_loop, hmsg]
    cases hsend : send msg (recipientEmail r) <;>
      · simp only [hsend, hempty, Bool.false_eq_true, if_false, if_true]
        rw [send_bulk_loop_eq_addState]
        simp [addState, emptyBulkState]
  · intro hnone
    simp only [send_bulk_emails]
    rw [send_bulk_loop, hnone, send_bulk_loop_eq_addState]
    simp [addState, emptyBulkState]

/-- C4 amended witness: one successfully rendered recipient followed by
another recipient does produce a delay event between the two. -/
theorem bulk_delay_after_rendered_only_witness :
    (send_bulk_emails
        (fun _ => some { from_addr := "s", to_addr := "a@x.com", subject := "S",
                         body := "B", attached := [] })
        (fun _ _ => true)
        [[("email", "a@x.com")], [("email", "c@x.com")]]).2 =
      (if true then BulkEvent.sentTo (recipientEmail [("email", "a@x.com")])
       else BulkEvent.sendFailedTo (recipientEmail [("email", "a@x.com")])) ::
      BulkEvent.delayed ::
      (send_bulk_emails
        (fun _ => some { from_addr := "s", to_addr := "a@x.com", subject := "S",
                         body := "B", attached := [] })
        (fun _ _ => true) [[("email", "c@x.com")]]).2 :=
  (bulk_delay_after_rendered_only
    (fun _ => some { from_addr := "s", to_addr := "a@x.com", subject := "S",
                     body := "B", attached := [] })
    (fun _ _ => true) [("email", "a@x.com")] [[("email", "c@x.com")]]
    (by decide)).1 _ rfl

/-- C6: when rendering fails for a recipient, it is counted failed with
its address recorded, its only event is the render failure (so no send
attempt), and the remaining recipients are processed exactly as they
would be on their own: no per-recipient error aborts the batch. -/
theorem bulk_render_failure_no_send (render : Recipient → Option RenderedMessage)
    (send : RenderedMessage → String → Bool) (r : Recipient) (rest : List Recipient)
    (h : render r = none) :
    (send_bulk_emails render send (r :: rest)).1.failed =
      (send_bulk_emails render send rest).1.failed + 1 ∧
    (send_bulk_emails render send (r :: rest)).1.success =
      (send_bulk_emails render send rest).1.success ∧
    (send_bulk_emails render send (r :: rest)).1.failed_recipients =
      recipientEmail r :: (send_bulk_emails render send rest).1.failed_recipients ∧
    (send_bulk_emails render send (r :: rest)).2 =
      BulkEvent.renderFailed (recipientEmail r) :: (send_bulk_emails render send rest).2 := by
  simp only [send_bulk_emails]
  rw [send_bulk_loop, h, send_bulk_loop_eq_addState]
  refine ⟨?_, ?_, ?_, ?_⟩ <;> simp [addState, emptyBulkState] <;> omega

/-- C6 witness: a concrete render failure in front of one more
recipient. -/
theorem bulk_render_failure_no_send_witness :
    (send_bulk_emails (fun _ => none) (fun _ _ => true)
        [[("email", "a@x.com")], [("email", "c@x.com")]]).1.failed =
      (send_bulk_emails (fun _ => none) (fun _ _ => true) [[("email", "c@x.com")]]).1.failed + 1 ∧
    (send_bulk_emails (fun _ => none) (fun _ _ => true)
        [[("email", "a@x.com")], [("email", "c@x.com")]]).1.success =
      (send_bulk_emails (fun _ => none) (fun _ _ => true) [[("email", "c@x.com")]]).1.success ∧
    (send_bulk_emails (fun _ => none) (fun _ _ => true)
        [[("email", "a@x.com")], [("email", "c@x.com")]]).1.failed_recipients =
      recipientEmail [("email", "a@x.com")] ::
        (send_bulk_emails (fun _ => none) (fun _ _ => true)
          [[("email", "c@x.com")]]).1.failed_recipients ∧
    (send_bulk_emails (fun _ => none) (fun _ _ => true)
        [[("email", "a@x.com")], [("email", "c@x.com")]]).2 =
      BulkEvent.renderFailed (recipientEmail [("email", "a@x.com")]) ::
        (send_bulk_emails (fun _ => none) (fun _ _ => true) [[("email", "c@x.com")]]).2 :=
  bulk_render_failure_no_send (fun _ => none) (fun _ _ => true)
    [("email", "a@x.com")] [[("email", "c@x.com")]] rfl

/-- C5: the loader keeps exactly the rows whose `email` field is
present, non-empty and contains `@`, each kept verbatim and in order,
with duplicates preserved (no deduplication). -/
theorem read_recipients_eq_filter (rows : List Recipient) :
    read_recipients_from_rows rows = rows.filter rowHasValidEmail := by
  induction rows with
  | nil => rfl
  | cons row rest ih =>
    rw [read_recipients_from_rows, List.filter_cons]
    cases hlk : List.lookup "email" row with
    | none => simp [rowHasValidEmail, hlk, ih]
    | some e =>
      cases hE : e.isEmpty <;> cases hC : e.contains '@' <;>
        simp [rowHasValidEmail, hlk, hE, hC, ih]

/-- C7: when the data source cannot be opened (`FileNotFoundError`),
the loader signals the source-not-found error and returns the empty
recipient list instead of raising. -/
theorem read_recipients_missing_source :
    read_recipients_from_csv CsvSource.missing =
      ([], some LoadSignal.sourceNotFound) := rfl

/-- C10: message creation is total and returns `none` exactly when an
error occurs while rendering: a placeholder of the subject or body
template names a field absent from the record, or the record lacks the
`email` key. Attachment problems never make the result `none`. -/
theorem create_email_message_none_iff (sender : String)
    (fileExists fileReadable : String → Bool) (recipient : Recipient)
    (subject body_template : List TemplatePart) (attachments : List String) :
    create_email_message sender fileExists fileReadable recipient subject
        body_template attachments = none ↔
      formatTemplate subject recipient = none ∨
      formatTemplate body_template recipient = none ∨
      List.lookup "email" recipient = none := by
  unfold create_email_message
  cases h1 : formatTemplate subject recipient <;>
    cases h2 : formatTemplate body_template recipient <;>
      cases h3 : List.lookup "email" recipient <;> simp

/-- The seventh line of every report is the success-rate line. -/
lemma generate_report_rate_line (stats : DispatchStats) :
    (generate_report stats)[6]? =
      some ("Success Rate: " ++ formatFixed1 (successRate stats) ++ "%") := by
  rw [generate_report, List.getElem?_append]
  simp

/-- C8: the success rate is `success/total*100` (idealizing Python
float arithmetic over `ℚ`) rendered to one decimal, computed only when
`total > 0`; with `total = 0` the guard takes the `else 0` branch and
the report renders a literal `0.0%` with no division performed. -/
theorem report_success_rate (stats : DispatchStats) :
    (stats.total = 0 → (generate_report stats)[6]? = some "Success Rate: 0.0%") ∧
    (0 < stats.total →
      (generate_report stats)[6]? =
        some ("Success Rate: " ++
          formatFixed1 ((stats.success : ℚ) / (stats.total : ℚ) * 100) ++ "%")) := by
  constructor
  · intro h0
    rw [generate_report_rate_line]
    have hr : successRate stats = 0 := by simp [successRate, h0]
    have hf : formatFixed1 0 = "0.0" := by
      simp only [formatFixed1, zero_mul, round_zero, Int.zero_tdiv, Int.zero_emod,
        Int.natAbs_zero]
      rfl
    rw [hr, hf]
    rfl
  · intro hpos
    rw [generate_report_rate_line]
    have hr : successRate stats = (stats.success : ℚ) / (stats.total : ℚ) * 100 := by
      simp [successRate, hpos]
    rw [hr]

/-- C8 witness: the empty run reports a 0.0% success rate. -/
theorem report_success_rate_witness :
    (generate_report { total := 0, success := 0, failed := 0, failed_recipients := [] })[6]? =
      some "Success Rate: 0.0%" :=
  (report_success_rate
    { total := 0, success := 0, failed := 0, failed_recipients := [] }).1 rfl
